import Mathlib

/-!
Shallow embedding of the media-rating application's logic.

The source consists of two files:
* `App` (the catalog browser plus the rating dialog, `src/unnamed/part_000`),
* `AddMediaDialog` / `EditMediaDialog` (`src/src/components/AddMediaDialog.tsx`).

JavaScript strings are modelled as `String`, absent/undefined optional fields
as `Option`, the remote record store as explicit lists of records, and each
network call as an entry of an explicit call trace with an externally chosen
success/failure outcome.
-/

/-- JavaScript `String.prototype.toLowerCase`, modelled characterwise. -/
def jsToLower (s : String) : String := s.map Char.toLower

/-- Helper for substring search: does the second character list occur as a
prefix of the first? -/
def charsStartWith : List Char → List Char → Bool
  | _, [] => true
  | [], _ :: _ => false
  | a :: s, b :: t => a = b && charsStartWith s t

/-- Helper for substring search: does the second character list occur as a
contiguous run inside the first? -/
def charsContain : List Char → List Char → Bool
  | [], sub => charsStartWith [] sub
  | a :: s, sub => charsStartWith (a :: s) sub || charsContain s sub

/-- JavaScript `String.prototype.includes`: `jsIncludes s sub` holds when
`sub` occurs contiguously inside `s`. -/
def jsIncludes (s sub : String) : Bool := charsContain s.toList sub.toList

/-- JavaScript `String.prototype.trim`: drop whitespace from both ends,
modelled structurally over the character list. -/
def jsTrim (s : String) : String :=
  String.mk (((s.toList.dropWhile Char.isWhitespace).reverse.dropWhile
    Char.isWhitespace).reverse)

/-- JavaScript `str.trim() || null`: trim, and normalize an empty result to
`null` (here `none`). -/
def jsTrimOrNull (s : String) : Option String :=
  if jsTrim s = "" then none else some (jsTrim s)

/-- One catalog entry, per the `media` collection records created by
`AddMediaDialog.handleSubmit` and consumed by `App`. -/
structure Media where
  id : String
  title : String
  type : String
  genre : String
  releaseYear : Option Nat
  description : Option String
  coverImage : Option String
  country : Option String
  deriving Repr, DecidableEq

/-- One rating record, per the `ratings` collection. `updatedAt := none`
models the field being absent from the JavaScript object literal. -/
structure Rating where
  id : String
  userId : String
  mediaId : String
  rating : Nat
  review : Option String
  updatedAt : Option String
  deriving Repr, DecidableEq

/-- The authenticated user, as consumed from the auth subscription. -/
structure UserInfo where
  id : String
  deriving Repr, DecidableEq

/-- Payload of `blink.db.ratings.update(existingRating.id, {...})` in
`handleSubmitRating`. -/
structure RatingUpdate where
  rating : Nat
  review : Option String
  updatedAt : String
  deriving Repr, DecidableEq

/-- A store call issued against the `ratings` collection by the rating
dialog. -/
inductive RatingCall
  | create (data : Rating)
  | update (id : String) (data : RatingUpdate)
  deriving Repr, DecidableEq

/-- The `review` field a rating store call writes. -/
def RatingCall.reviewField : RatingCall → Option String
  | .create d => d.review
  | .update _ d => d.review

/-- Toast shown by `handleSubmitRating`. -/
inductive RatingToast
  | ratingRequired
  | saved
  | saveError
  deriving Repr, DecidableEq

/-- The component state of `App` touched by the rating dialog:
`userRatings` (mediaId-indexed map), `showRatingDialog`, `rating`,
`review`. -/
structure RatingDialogState where
  userRatings : String → Option Rating
  showRatingDialog : Bool
  rating : Nat
  review : String

/-- Result of one invocation of `handleSubmitRating`: the store calls it
issued, the next component state, and the toast it raised. -/
structure RatingSubmitResult where
  calls : List RatingCall
  state : RatingDialogState
  toast : RatingToast

/-- Embedding of `handleSubmitRating` (`App`, lines 79-131).
`freshId` stands for the nondeterministically generated
`rating_${Date.now()}_...` string, `now` for `new Date().toISOString()`,
and `callSucceeds` for whether the awaited store call resolves. -/
def handleSubmitRating (st : RatingDialogState) (user : UserInfo)
    (selectedMedia : Media) (freshId now : String) (callSucceeds : Bool) :
    RatingSubmitResult :=
  if st.rating = 0 then
    { calls := [], state := st, toast := .ratingRequired }
  else
    let existingRating := st.userRatings selectedMedia.id
    let ratingData : Rating :=
      { id := match existingRating with
              | some r => if r.id = "" then freshId else r.id
              | none => freshId
        userId := user.id
        mediaId := selectedMedia.id
        rating := st.rating
        review := jsTrimOrNull st.review
        updatedAt := none }
    let call : RatingCall :=
      match existingRating with
      | some r => .update r.id
          { rating := st.rating, review := jsTrimOrNull st.review, updatedAt := now }
      | none => .create ratingData
    if callSucceeds then
      { calls := [call]
        state :=
          { userRatings := fun k =>
              if k = selectedMedia.id then some ratingData else st.userRatings k
            showRatingDialog := false
            rating := 0
            review := "" }
        toast := .saved }
    else
      { calls := [call], state := st, toast := .saveError }

/-- Embedding of `filteredMedia` (`App`, lines 151-155): the catalog list
filtered by the live search query. -/
def filteredMedia (media : List Media) (searchQuery : String) : List Media :=
  media.filter (fun item =>
    searchQuery == "" ||
    jsIncludes (jsToLower item.title) (jsToLower searchQuery) ||
    (match item.description with
     | some d => jsIncludes (jsToLower d) (jsToLower searchQuery)
     | none => false))

/-- The Add Media draft form (`AddMediaDialog`'s `formData`): every field is
the raw string held by the controlled input. -/
structure AddForm where
  title : String
  type : String
  genre : String
  releaseYear : String
  description : String
  coverImage : String
  country : String
  deriving Repr, DecidableEq

/-- The initial/reset Add Media draft: all fields empty. -/
def emptyAddForm : AddForm :=
  { title := "", type := "", genre := "", releaseYear := ""
    description := "", coverImage := "", country := "" }

/-- Embedding of `AddMediaDialog.handleInputChange` (lines 65-72): the
computed-key spread sets the named field, and when `field === 'type'` it
additionally resets `genre` to the empty string. -/
def handleInputChange (form : AddForm) (field value : String) : AddForm :=
  let updated :=
    match field with
    | "title" => { form with title := value }
    | "type" => { form with type := value }
    | "genre" => { form with genre := value }
    | "releaseYear" => { form with releaseYear := value }
    | "description" => { form with description := value }
    | "coverImage" => { form with coverImage := value }
    | "country" => { form with country := value }
    | _ => form
  if field = "type" then { updated with genre := "" } else updated

/-- JavaScript `parseInt` restricted to the decimal digit prefix; `none`
models `NaN`. -/
def jsParseInt (s : String) : Option Nat :=
  let ds := s.toList.takeWhile Char.isDigit
  if ds = [] then none
  else some (ds.foldl (fun a c => a * 10 + (c.toNat - 48)) 0)

/-- The record created by `AddMediaDialog.handleSubmit` (the `mediaData`
literal, lines 89-99). Note `country` is `formData.country || null` with no
trim, while `description` and `coverImage` are trimmed then null-normalized. -/
structure MediaCreate where
  id : String
  title : String
  type : String
  genre : String
  releaseYear : Option Nat
  description : Option String
  coverImage : Option String
  country : Option String
  createdAt : String
  deriving Repr, DecidableEq

/-- Embedding of the `mediaData` literal of `AddMediaDialog.handleSubmit`. -/
def mediaData (form : AddForm) (freshId now : String) : MediaCreate :=
  { id := freshId
    title := jsTrim form.title
    type := form.type
    genre := form.genre
    releaseYear := jsParseInt form.releaseYear
    description := jsTrimOrNull form.description
    coverImage := jsTrimOrNull form.coverImage
    country := if form.country = "" then none else some form.country
    createdAt := now }

/-- The partial record sent by `EditMediaDialog.handleSubmit` (the
`updatedData` literal, lines 396-403): the spread of `formData` with `title`
trimmed, `description`/`coverImage` trimmed-then-null-normalized, and
`updatedAt` stamped. `genre`, `country`, `type`, `releaseYear` pass through
verbatim. -/
structure MediaUpdate where
  title : String
  type : String
  genre : String
  releaseYear : Nat
  country : String
  description : Option String
  coverImage : Option String
  updatedAt : String
  deriving Repr, DecidableEq

/-- A store call issued against the `media` collection. -/
inductive MediaCall
  | create (data : MediaCreate)
  | update (id : String) (data : MediaUpdate)
  deriving Repr, DecidableEq

/-- Toast shown by `AddMediaDialog.handleSubmit`. -/
inductive AddToast
  | missingInformation
  | added
  | addError
  deriving Repr, DecidableEq

/-- Result of one invocation of `AddMediaDialog.handleSubmit`: the media
store calls issued, the next draft, the next `open` flag, and the toast. -/
structure AddSubmitResult where
  calls : List MediaCall
  form : AddForm
  dialogOpen : Bool
  toast : AddToast
  deriving Repr, DecidableEq

/-- Embedding of `AddMediaDialog.handleSubmit` (lines 74-131). The guard is
the JavaScript falsiness test `!title || !type || !genre || !releaseYear`
on the draft strings; `createSucceeds` is whether the awaited create
resolves. -/
def handleSubmitAdd (form : AddForm) (dialogOpen : Bool)
    (freshId now : String) (createSucceeds : Bool) : AddSubmitResult :=
  if form.title = "" ∨ form.type = "" ∨ form.genre = "" ∨ form.releaseYear = "" then
    { calls := [], form := form, dialogOpen := dialogOpen, toast := .missingInformation }
  else
    let d := mediaData form freshId now
    if createSucceeds then
      { calls := [.create d], form := emptyAddForm, dialogOpen := false, toast := .added }
    else
      { calls := [.create d], form := form, dialogOpen := dialogOpen, toast := .addError }

/-- The Edit Media draft form (`EditMediaDialog`'s `formData`); unlike the
Add draft, `releaseYear` is held as a number. -/
structure EditForm where
  title : String
  type : String
  genre : String
  releaseYear : Nat
  country : String
  description : String
  coverImage : String
  deriving Repr, DecidableEq

/-- Embedding of the `updatedData` literal of `EditMediaDialog.handleSubmit`. -/
def updatedData (form : EditForm) (now : String) : MediaUpdate :=
  { title := jsTrim form.title
    type := form.type
    genre := form.genre
    releaseYear := form.releaseYear
    country := form.country
    description := jsTrimOrNull form.description
    coverImage := jsTrimOrNull form.coverImage
    updatedAt := now }

/-- Toast shown by `EditMediaDialog.handleSubmit`. -/
inductive EditToast
  | titleRequired
  | updated
  | updateError
  deriving Repr, DecidableEq

/-- Result of one invocation of `EditMediaDialog.handleSubmit`. -/
structure EditSubmitResult where
  calls : List MediaCall
  form : EditForm
  dialogOpen : Bool
  toast : EditToast
  deriving Repr, DecidableEq

/-- Embedding of `EditMediaDialog.handleSubmit` (lines 382-424): rejected
locally when the trimmed title is empty, otherwise one update call of
`updatedData` against the edited media's id. -/
def handleSubmitEdit (form : EditForm) (mediaId : String) (dialogOpen : Bool)
    (now : String) (updateSucceeds : Bool) : EditSubmitResult :=
  if jsTrim form.title = "" then
    { calls := [], form := form, dialogOpen := dialogOpen, toast := .titleRequired }
  else
    let u := updatedData form now
    if updateSucceeds then
      { calls := [.update mediaId u], form := form, dialogOpen := false, toast := .updated }
    else
      { calls := [.update mediaId u], form := form, dialogOpen := dialogOpen, toast := .updateError }

/-- The remote record store visible to this client: the `ratings` and
`media` collections. -/
structure Store where
  ratings : List Rating
  media : List Media
  deriving Repr, DecidableEq

/-- Embedding of `blink.db.ratings.list({ where: { mediaId: media.id } })`
as used by `EditMediaDialog.handleDelete` (lines 430-433). -/
def listRatingsByMedia (s : Store) (mid : String) : List Rating :=
  s.ratings.filter (fun r => r.mediaId == mid)

/-- Embedding of `blink.db.ratings.delete(id)`: removes the rating record
with that id. -/
def deleteRatingById (s : Store) (rid : String) : Store :=
  { s with ratings := s.ratings.filter (fun r => !(r.id == rid)) }

/-- Embedding of `blink.db.media.delete(id)`: removes the media record with
that id. -/
def deleteMediaById (s : Store) (mid : String) : Store :=
  { s with media := s.media.filter (fun m => !(m.id == mid)) }

/-- One delete call issued by `EditMediaDialog.handleDelete`, in issue
order. -/
inductive DelCall
  | delRating (rid : String)
  | delMedia (mid : String)
  deriving Repr, DecidableEq

/-- The sequential `for (const rating of ratings) await delete(rating.id)`
loop of `handleDelete`. `k` is the 1-based index of the next awaited delete;
`failAt = some j` makes the `j`-th rating delete throw (the call is issued
but removes nothing), modelling a store error caught by the surrounding
`try`. Returns the store after the loop, the issued calls, and whether the
loop ran to completion. -/
def deleteRatingsSeq : Store → List Rating → Nat → Option Nat →
    Store × List DelCall × Bool
  | s, [], _, _ => (s, [], true)
  | s, r :: rest, k, failAt =>
    if failAt = some k then (s, [.delRating r.id], false)
    else
      let out := deleteRatingsSeq (deleteRatingById s r.id) rest (k + 1) failAt
      (out.1, .delRating r.id :: out.2.1, out.2.2)

/-- Embedding of `EditMediaDialog.handleDelete` (lines 426-460): list the
ratings referencing the media, delete them one at a time (each awaited),
then delete the media record itself. A rating-delete failure aborts the
whole cascade (the `catch` block), leaving the media record untouched.
Returns the resulting store, the issued delete calls in order, and whether
the cascade completed. -/
def handleDelete (s : Store) (mid : String) (failAt : Option Nat) :
    Store × List DelCall × Bool :=
  let rs := listRatingsByMedia s mid
  let out := deleteRatingsSeq s rs 1 failAt
  if out.2.2 then
    (deleteMediaById out.1 mid, out.2.1 ++ [.delMedia mid], true)
  else
    (out.1, out.2.1, false)

/-- A `where` clause of a `blink.db.ratings.list` call. -/
structure RatingsWhere where
  userId : Option String
  mediaId : Option String
  deriving Repr, DecidableEq

/-- The `where` clause of the `ratings.list` call in `App.loadUserRatings`
(lines 46-61): `{ userId: user.id }`. -/
def loadUserRatingsWhere (uid : String) : RatingsWhere :=
  { userId := some uid, mediaId := none }

/-- The `where` clause of the `ratings.list` call in
`EditMediaDialog.handleDelete` (lines 430-433): `{ mediaId: media.id }`. -/
def handleDeleteRatingsWhere (mid : String) : RatingsWhere :=
  { userId := none, mediaId := some mid }

/-- The `where` clauses of every `ratings.list` call the application issues:
the catalog's per-user rating load and the delete cascade's listing. -/
def appRatingsListWheres (uid mid : String) : List RatingsWhere :=
  [loadUserRatingsWhere uid, handleDeleteRatingsWhere mid]

/-- Sample catalog entry used to instantiate theorems with hypotheses. -/
def sampleMedia : Media :=
  { id := "m1", title := "Parasite", type := "movie", genre := "Thriller"
    releaseYear := some 2019, description := some "A drama"
    coverImage := none, country := some "South Korea" }

/-- Sample authenticated user used to instantiate theorems with hypotheses. -/
def sampleUser : UserInfo := { id := "u1" }

/-- Sample pre-existing rating record used to instantiate theorems with
hypotheses. -/
def sampleRating : Rating :=
  { id := "r1", userId := "u1", mediaId := "m1", rating := 3
    review := some "fine", updatedAt := some "2024-01-01" }

/-- Rating-dialog state whose map holds `sampleRating` for `sampleMedia`. -/
def stateWithExisting : RatingDialogState :=
  { userRatings := fun k => if k = "m1" then some sampleRating else none
    showRatingDialog := true, rating := 5, review := "   " }

/-- Rating-dialog state whose map is empty. -/
def stateWithoutExisting : RatingDialogState :=
  { userRatings := fun _ => none
    showRatingDialog := true, rating := 4, review := "" }

/-- C3: submitting the rating dialog with rating 0 issues no store call,
leaves the rating map, the dialog open/closed flag and both inputs
unchanged, and raises the validation toast. -/
theorem submit_rating_zero_rejected (st : RatingDialogState) (user : UserInfo)
    (selectedMedia : Media) (freshId now : String) (ok : Bool)
    (h : st.rating = 0) :
    (handleSubmitRating st user selectedMedia freshId now ok).calls = [] ∧
    (handleSubmitRating st user selectedMedia freshId now ok).state.userRatings
      = st.userRatings ∧
    (handleSubmitRating st user selectedMedia freshId now ok).state.showRatingDialog
      = st.showRatingDialog ∧
    (handleSubmitRating st user selectedMedia freshId now ok).state.rating
      = st.rating ∧
    (handleSubmitRating st user selectedMedia freshId now ok).state.review
      = st.review ∧
    (handleSubmitRating st user selectedMedia freshId now ok).toast
      = .ratingRequired := by
  simp [handleSubmitRating, h]

/-- Witness for `submit_rating_zero_rejected` at a concrete zero-rating
state. -/
theorem submit_rating_zero_rejected_witness :
    ({ stateWithExisting with rating := 0 } : RatingDialogState).rating = 0 ∧
    ((handleSubmitRating { stateWithExisting with rating := 0 } sampleUser
        sampleMedia "rid" "t0" true).calls = [] ∧
     (handleSubmitRating { stateWithExisting with rating := 0 } sampleUser
        sampleMedia "rid" "t0" true).state.userRatings
       = ({ stateWithExisting with rating := 0 } : RatingDialogState).userRatings ∧
     (handleSubmitRating { stateWithExisting with rating := 0 } sampleUser
        sampleMedia "rid" "t0" true).state.showRatingDialog
       = ({ stateWithExisting with rating := 0 } : RatingDialogState).showRatingDialog ∧
     (handleSubmitRating { stateWithExisting with rating := 0 } sampleUser
        sampleMedia "rid" "t0" true).state.rating
       = ({ stateWithExisting with rating := 0 } : RatingDialogState).rating ∧
     (handleSubmitRating { stateWithExisting with rating := 0 } sampleUser
        sampleMedia "rid" "t0" true).state.review
       = ({ stateWithExisting with rating := 0 } : RatingDialogState).review ∧
     (handleSubmitRating { stateWithExisting with rating := 0 } sampleUser
        sampleMedia "rid" "t0" true).toast = .ratingRequired) :=
  ⟨rfl, submit_rating_zero_rejected _ sampleUser sampleMedia "rid" "t0" true rfl⟩

/-- C1: for a valid submission (rating in [1,5]): when the in-memory map
already holds a rating for the selected media (with a well-formed non-empty
id), exactly one update call is issued — never a create — carrying the
rating, the trimmed-or-null review and `updatedAt`, and on success the new
local map entry keeps the existing rating's id; when the map holds none,
exactly one create call is issued with the freshly generated id, and on
success the local map entry carries the submitted rating and a `none`
review whenever the review input was blank. -/
theorem submit_rating_create_vs_update (st : RatingDialogState)
    (user : UserInfo) (selectedMedia : Media) (freshId now : String)
    (ok : Bool) (h1 : 1 ≤ st.rating) (h5 : st.rating ≤ 5) :
    (∀ r, st.userRatings selectedMedia.id = some r → r.id ≠ "" →
      (handleSubmitRating st user selectedMedia freshId now ok).calls =
        [.update r.id
          { rating := st.rating, review := jsTrimOrNull st.review, updatedAt := now }] ∧
      (ok = true →
        (handleSubmitRating st user selectedMedia freshId now ok).state.userRatings
            selectedMedia.id =
          some { id := r.id, userId := user.id, mediaId := selectedMedia.id
                 rating := st.rating, review := jsTrimOrNull st.review
                 updatedAt := none })) ∧
    (st.userRatings selectedMedia.id = none →
      (handleSubmitRating st user selectedMedia freshId now ok).calls =
        [.create { id := freshId, userId := user.id, mediaId := selectedMedia.id
                   rating := st.rating, review := jsTrimOrNull st.review
                   updatedAt := none }] ∧
      (ok = true →
        (handleSubmitRating st user selectedMedia freshId now ok).state.userRatings
            selectedMedia.id =
          some { id := freshId, userId := user.id, mediaId := selectedMedia.id
                 rating := st.rating, review := jsTrimOrNull st.review
                 updatedAt := none } ∧
        (jsTrim st.review = "" →
          ∀ e, (handleSubmitRating st user selectedMedia freshId now ok).state.userRatings
              selectedMedia.id = some e → e.review = none))) := by
  have hne : ¬ st.rating = 0 := by omega
  constructor
  · intro r hr hrid
    cases ok <;>
      simp [handleSubmitRating, hne, hr, hrid, jsTrimOrNull]
  · intro hr
    cases ok <;>
      simp [handleSubmitRating, hne, hr, jsTrimOrNull]

/-- Witness for `submit_rating_create_vs_update` at a concrete state with
rating 5 and an existing rating for the selected media. -/
theorem submit_rating_create_vs_update_witness :
    (1 ≤ stateWithExisting.rating ∧ stateWithExisting.rating ≤ 5) ∧
    ((∀ r, stateWithExisting.userRatings sampleMedia.id = some r → r.id ≠ "" →
      (handleSubmitRating stateWithExisting sampleUser sampleMedia "fresh" "t1" true).calls =
        [.update r.id
          { rating := stateWithExisting.rating
            review := jsTrimOrNull stateWithExisting.review, updatedAt := "t1" }] ∧
      (true = true →
        (handleSubmitRating stateWithExisting sampleUser sampleMedia "fresh" "t1"
            true).state.userRatings sampleMedia.id =
          some { id := r.id, userId := sampleUser.id, mediaId := sampleMedia.id
                 rating := stateWithExisting.rating
                 review := jsTrimOrNull stateWithExisting.review
                 updatedAt := none })) ∧
    (stateWithExisting.userRatings sampleMedia.id = none →
      (handleSubmitRating stateWithExisting sampleUser sampleMedia "fresh" "t1" true).calls =
        [.create { id := "fresh", userId := sampleUser.id, mediaId := sampleMedia.id
                   rating := stateWithExisting.rating
                   review := jsTrimOrNull stateWithExisting.review
                   updatedAt := none }] ∧
      (true = true →
        (handleSubmitRating stateWithExisting sampleUser sampleMedia "fresh" "t1"
            true).state.userRatings sampleMedia.id =
          some { id := "fresh", userId := sampleUser.id, mediaId := sampleMedia.id
                 rating := stateWithExisting.rating
                 review := jsTrimOrNull stateWithExisting.review
                 updatedAt := none } ∧
        (jsTrim stateWithExisting.review = "" →
          ∀ e, (handleSubmitRating stateWithExisting sampleUser sampleMedia "fresh" "t1"
              true).state.userRatings sampleMedia.id = some e → e.review = none)))) :=
  ⟨by decide,
   submit_rating_create_vs_update stateWithExisting sampleUser sampleMedia
     "fresh" "t1" true (by decide) (by decide)⟩

/-- C5: for a valid submission whose review input is empty or whitespace
only, the review value written by the single store call — create or update
alike — is `none` (null), never the raw string and never the empty string,
and on success the local map entry's review is the same `none`. -/
theorem submit_rating_blank_review_null (st : RatingDialogState)
    (user : UserInfo) (selectedMedia : Media) (freshId now : String)
    (ok : Bool) (h0 : st.rating ≠ 0) (hb : jsTrim st.review = "") :
    (handleSubmitRating st user selectedMedia freshId now ok).calls.length = 1 ∧
    (∀ c ∈ (handleSubmitRating st user selectedMedia freshId now ok).calls,
      c.reviewField = none) ∧
    (ok = true →
      ∀ e, (handleSubmitRating st user selectedMedia freshId now ok).state.userRatings
          selectedMedia.id = some e → e.review = none) := by
  have hnull : jsTrimOrNull st.review = none := by simp [jsTrimOrNull, hb]
  cases hr : st.userRatings selectedMedia.id <;>
    cases ok <;>
      simp [handleSubmitRating, h0, hr, hnull, RatingCall.reviewField]

/-- Witness for `submit_rating_blank_review_null` at a concrete state with
a whitespace-only review. -/
theorem submit_rating_blank_review_null_witness :
    (stateWithExisting.rating ≠ 0 ∧ jsTrim stateWithExisting.review = "") ∧
    ((handleSubmitRating stateWithExisting sampleUser sampleMedia "fresh" "t2"
        true).calls.length = 1 ∧
     (∀ c ∈ (handleSubmitRating stateWithExisting sampleUser sampleMedia "fresh" "t2"
        true).calls, c.reviewField = none) ∧
     (true = true →
       ∀ e, (handleSubmitRating stateWithExisting sampleUser sampleMedia "fresh" "t2"
           true).state.userRatings sampleMedia.id = some e → e.review = none)) :=
  ⟨⟨by decide, by decide⟩,
   submit_rating_blank_review_null stateWithExisting sampleUser sampleMedia
     "fresh" "t2" true (by decide) (by decide)⟩

/-- C10: after a successful rating update, the local map entry for the
selected media is replaced by the `ratingData` literal, which carries the
fields id, userId, mediaId, rating and review and whose `updatedAt` is
absent (`none`) — even though the update call sent to the store stamped
`updatedAt` — so any `updatedAt` previously loaded into that map entry is
dropped. -/
theorem submit_rating_update_drops_updatedAt (st : RatingDialogState)
    (user : UserInfo) (selectedMedia : Media) (freshId now : String)
    (r : Rating) (h0 : st.rating ≠ 0)
    (hr : st.userRatings selectedMedia.id = some r) :
    (handleSubmitRating st user selectedMedia freshId now true).calls =
      [.update r.id
        { rating := st.rating, review := jsTrimOrNull st.review, updatedAt := now }] ∧
    (handleSubmitRating st user selectedMedia freshId now true).state.userRatings
        selectedMedia.id =
      some { id := if r.id = "" then freshId else r.id
             userId := user.id, mediaId := selectedMedia.id
             rating := st.rating, review := jsTrimOrNull st.review
             updatedAt := none } ∧
    (∀ e, (handleSubmitRating st user selectedMedia freshId now true).state.userRatings
        selectedMedia.id = some e → e.updatedAt = none) := by
  refine ⟨?_, ?_, ?_⟩ <;>
    simp [handleSubmitRating, h0, hr]

/-- Witness for `submit_rating_update_drops_updatedAt`: the prior map entry
`sampleRating` carries `updatedAt = some "2024-01-01"`, the new one carries
none. -/
theorem submit_rating_update_drops_updatedAt_witness :
    (stateWithExisting.rating ≠ 0 ∧
     stateWithExisting.userRatings sampleMedia.id = some sampleRating) ∧
    ((handleSubmitRating stateWithExisting sampleUser sampleMedia "fresh" "t3"
        true).calls =
      [.update sampleRating.id
        { rating := stateWithExisting.rating
          review := jsTrimOrNull stateWithExisting.review, updatedAt := "t3" }] ∧
     (handleSubmitRating stateWithExisting sampleUser sampleMedia "fresh" "t3"
        true).state.userRatings sampleMedia.id =
       some { id := if sampleRating.id = "" then "fresh" else sampleRating.id
              userId := sampleUser.id, mediaId := sampleMedia.id
              rating := stateWithExisting.rating
              review := jsTrimOrNull stateWithExisting.review
              updatedAt := none } ∧
     (∀ e, (handleSubmitRating stateWithExisting sampleUser sampleMedia "fresh" "t3"
         true).state.userRatings sampleMedia.id = some e → e.updatedAt = none)) :=
  ⟨⟨by decide, by decide⟩,
   submit_rating_update_drops_updatedAt stateWithExisting sampleUser sampleMedia
     "fresh" "t3" sampleRating (by decide) (by decide)⟩

/-- C4: the filtered catalog is a subsequence (hence subset) of the
unfiltered one; a record is kept iff the filter is empty, or the lowercased
filter occurs in the lowercased title, or the record has a description and
the lowercased filter occurs in its lowercased description; and a record
with an absent description can only match via the empty filter or the
title. -/
theorem filteredMedia_spec (m : List Media) (q : String) (r : Media)
    (hdn : r.description = none) :
    List.Sublist (filteredMedia m q) m ∧
    (∀ x, x ∈ filteredMedia m q ↔ x ∈ m ∧
      (q = "" ∨ jsIncludes (jsToLower x.title) (jsToLower q) = true ∨
       ∃ d, x.description = some d ∧ jsIncludes (jsToLower d) (jsToLower q) = true)) ∧
    (r ∈ filteredMedia m q ↔ r ∈ m ∧
      (q = "" ∨ jsIncludes (jsToLower r.title) (jsToLower q) = true)) := by
  have hmem : ∀ x : Media, x ∈ filteredMedia m q ↔ x ∈ m ∧
      (q = "" ∨ jsIncludes (jsToLower x.title) (jsToLower q) = true ∨
       ∃ d, x.description = some d ∧ jsIncludes (jsToLower d) (jsToLower q) = true) := by
    intro x
    rw [filteredMedia, List.mem_filter]
    refine and_congr_right fun _ => ?_
    cases hd : x.description <;>
      simp [hd, beq_iff_eq, or_assoc]
  refine ⟨List.filter_sublist m, hmem, ?_⟩
  rw [hmem r, hdn]
  simp

/-- Witness for `filteredMedia_spec` at a concrete catalog, query and
description-free record. -/
theorem filteredMedia_spec_witness :
    (({ sampleMedia with id := "m2", description := none } : Media).description
      = none) ∧
    (List.Sublist (filteredMedia
         [sampleMedia, { sampleMedia with id := "m2", description := none }] "rasi")
       [sampleMedia, { sampleMedia with id := "m2", description := none }] ∧
     (∀ x, x ∈ filteredMedia
         [sampleMedia, { sampleMedia with id := "m2", description := none }] "rasi" ↔
       x ∈ [sampleMedia, { sampleMedia with id := "m2", description := none }] ∧
       ("rasi" = "" ∨ jsIncludes (jsToLower x.title) (jsToLower "rasi") = true ∨
        ∃ d, x.description = some d ∧
          jsIncludes (jsToLower d) (jsToLower "rasi") = true)) ∧
     ({ sampleMedia with id := "m2", description := none } ∈ filteredMedia
         [sampleMedia, { sampleMedia with id := "m2", description := none }] "rasi" ↔
       { sampleMedia with id := "m2", description := none } ∈
         [sampleMedia, { sampleMedia with id := "m2", description := none }] ∧
       ("rasi" = "" ∨ jsIncludes
         (jsToLower ({ sampleMedia with id := "m2", description := none } : Media).title)
         (jsToLower "rasi") = true))) :=
  ⟨rfl,
   filteredMedia_spec
     [sampleMedia, { sampleMedia with id := "m2", description := none }] "rasi"
     { sampleMedia with id := "m2", description := none } rfl⟩

/-- C6: submitting the Add-Media form with any of title, type, genre or
releaseYear empty issues no create call, leaves the draft and the open
dialog unchanged, and raises the validation toast; a create call is issued
only when all four required fields are non-empty, and then exactly one. -/
theorem add_submit_requires_fields (form : AddForm) (dOpen : Bool)
    (freshId now : String) (ok : Bool)
    (hinv : form.title = "" ∨ form.type = "" ∨ form.genre = "" ∨
      form.releaseYear = "") :
    (handleSubmitAdd form dOpen freshId now ok).calls = [] ∧
    (handleSubmitAdd form dOpen freshId now ok).form = form ∧
    (handleSubmitAdd form dOpen freshId now ok).dialogOpen = dOpen ∧
    (handleSubmitAdd form dOpen freshId now ok).toast = .missingInformation ∧
    (∀ f2 : AddForm, ∀ o2 ok2 : Bool,
      (handleSubmitAdd f2 o2 freshId now ok2).calls ≠ [] →
        f2.title ≠ "" ∧ f2.type ≠ "" ∧ f2.genre ≠ "" ∧ f2.releaseYear ≠ "") ∧
    (∀ f2 : AddForm, ∀ o2 ok2 : Bool,
      f2.title ≠ "" → f2.type ≠ "" → f2.genre ≠ "" → f2.releaseYear ≠ "" →
        (handleSubmitAdd f2 o2 freshId now ok2).calls =
          [.create (mediaData f2 freshId now)]) := by
  refine ⟨?_, ?_, ?_, ?_, ?_, ?_⟩
  · simp [handleSubmitAdd, hinv]
  · simp [handleSubmitAdd, hinv]
  · simp [handleSubmitAdd, hinv]
  · simp [handleSubmitAdd, hinv]
  · intro f2 o2 ok2 hc
    by_cases h2 : f2.title = "" ∨ f2.type = "" ∨ f2.genre = "" ∨ f2.releaseYear = ""
    · exact absurd (by simp [handleSubmitAdd, h2]) hc
    · push_neg at h2
      exact h2
  · intro f2 o2 ok2 h1 h2 h3 h4
    have hval : ¬ (f2.title = "" ∨ f2.type = "" ∨ f2.genre = "" ∨
        f2.releaseYear = "") := by
      simp [h1, h2, h3, h4]
    cases ok2 <;> simp [handleSubmitAdd, hval]

/-- Add-Media draft with title, type and releaseYear filled in but genre
still empty; used to instantiate `add_submit_requires_fields`. -/
def missingGenreForm : AddForm :=
  { emptyAddForm with title := "Dune", type := "movie", releaseYear := "2021" }

/-- Witness for `add_submit_requires_fields` at a draft whose genre is
empty. -/
theorem add_submit_requires_fields_witness :
    (missingGenreForm.title = "" ∨ missingGenreForm.type = "" ∨
     missingGenreForm.genre = "" ∨ missingGenreForm.releaseYear = "") ∧
    ((handleSubmitAdd missingGenreForm true "id1" "t4" true).calls = [] ∧
     (handleSubmitAdd missingGenreForm true "id1" "t4" true).form = missingGenreForm ∧
     (handleSubmitAdd missingGenreForm true "id1" "t4" true).dialogOpen = true ∧
     (handleSubmitAdd missingGenreForm true "id1" "t4" true).toast = .missingInformation ∧
     (∀ f2 : AddForm, ∀ o2 ok2 : Bool,
       (handleSubmitAdd f2 o2 "id1" "t4" ok2).calls ≠ [] →
         f2.title ≠ "" ∧ f2.type ≠ "" ∧ f2.genre ≠ "" ∧ f2.releaseYear ≠ "") ∧
     (∀ f2 : AddForm, ∀ o2 ok2 : Bool,
       f2.title ≠ "" → f2.type ≠ "" → f2.genre ≠ "" → f2.releaseYear ≠ "" →
         (handleSubmitAdd f2 o2 "id1" "t4" ok2).calls =
           [.create (mediaData f2 "id1" "t4")])) :=
  ⟨by decide,
   add_submit_requires_fields missingGenreForm true "id1" "t4" true (by decide)⟩

/-- Add-Media draft with type "movie" and genre "Action", used as concrete
input for the input-change theorems. -/
def actionMovieForm : AddForm :=
  { emptyAddForm with type := "movie", genre := "Action" }

/-- Counterexample to C7 as stated: `genre` itself is a field other than
`type`, and an input change to it does change `genre`. -/
theorem add_type_clears_genre_cex :
    ("genre" : String) ≠ "type" ∧
    (handleInputChange actionMovieForm "genre" "Drama").genre ≠
      actionMovieForm.genre := by
  exact ⟨by decide, by decide⟩

/-- C7 (amended): an input change to the `type` field sets `type` to the
new value and resets `genre` to the empty string regardless of its prior
value, leaving title, releaseYear, description, coverImage and country
unchanged; and a change to any field other than `type` and other than
`genre` itself leaves `genre` unchanged. -/
theorem add_type_clears_genre (form : AddForm) (field value : String)
    (hft : field ≠ "type") (hfg : field ≠ "genre") :
    ((handleInputChange form "type" value).type = value ∧
     (handleInputChange form "type" value).genre = "" ∧
     (handleInputChange form "type" value).title = form.title ∧
     (handleInputChange form "type" value).releaseYear = form.releaseYear ∧
     (handleInputChange form "type" value).description = form.description ∧
     (handleInputChange form "type" value).coverImage = form.coverImage ∧
     (handleInputChange form "type" value).country = form.country) ∧
    (handleInputChange form field value).genre = form.genre := by
  constructor
  · simp [handleInputChange]
  · unfold handleInputChange
    rw [if_neg hft]
    split <;> simp_all

/-- Witness for `add_type_clears_genre`: a change to `title` leaves the
selected genre alone, and a change to `type` resets it. -/
theorem add_type_clears_genre_witness :
    (("title" : String) ≠ "type" ∧ ("title" : String) ≠ "genre") ∧
    (((handleInputChange actionMovieForm "type" "book").type = "book" ∧
      (handleInputChange actionMovieForm "type" "book").genre = "" ∧
      (handleInputChange actionMovieForm "type" "book").title =
        actionMovieForm.title ∧
      (handleInputChange actionMovieForm "type" "book").releaseYear =
        actionMovieForm.releaseYear ∧
      (handleInputChange actionMovieForm "type" "book").description =
        actionMovieForm.description ∧
      (handleInputChange actionMovieForm "type" "book").coverImage =
        actionMovieForm.coverImage ∧
      (handleInputChange actionMovieForm "type" "book").country =
        actionMovieForm.country) ∧
     (handleInputChange actionMovieForm "title" "book").genre =
       actionMovieForm.genre) :=
  ⟨⟨by decide, by decide⟩,
   add_type_clears_genre actionMovieForm "title" "book" (by decide) (by decide)⟩

/-- Counterexample to C8 as stated: the delete cascade's `ratings.list`
call is one of the application's ratings list queries, and its `where`
clause carries no userId condition. -/
theorem ratings_query_userId_cex :
    handleDeleteRatingsWhere "m1" ∈ appRatingsListWheres "u1" "m1" ∧
    (handleDeleteRatingsWhere "m1").userId = none := by
  exact ⟨by decide, by decide⟩

/-- C8 (amended): the catalog's rating load is the only userId-scoped
ratings list query; the delete cascade's ratings list query is scoped by
mediaId and carries no userId condition; every ratings list query the
application issues carries at least one of the two conditions. -/
theorem ratings_query_scoping (uid mid : String) :
    (loadUserRatingsWhere uid).userId = some uid ∧
    (handleDeleteRatingsWhere mid).userId = none ∧
    (handleDeleteRatingsWhere mid).mediaId = some mid ∧
    (appRatingsListWheres uid mid).all
      (fun w => w.userId.isSome || w.mediaId.isSome) = true := by
  refine ⟨rfl, rfl, rfl, ?_⟩
  simp [appRatingsListWheres, loadUserRatingsWhere, handleDeleteRatingsWhere]

/-- C9: a successful Edit-Media update issues exactly one update call whose
record has title trimmed and description/coverImage normalized to null when
empty after trimming, while genre, country and type are written exactly as
held in the draft — an empty genre or country is persisted as the empty
string — unlike the Add dialog, whose created record has country null when
the draft country is empty. -/
theorem edit_update_raw_fields (form : EditForm) (mid : String)
    (dOpen : Bool) (now : String) (addForm : AddForm)
    (freshId now2 : String)
    (ht : jsTrim form.title ≠ "") (hac : addForm.country = "") :
    (handleSubmitEdit form mid dOpen now true).calls =
      [.update mid (updatedData form now)] ∧
    (updatedData form now).title = jsTrim form.title ∧
    (updatedData form now).description = jsTrimOrNull form.description ∧
    (updatedData form now).coverImage = jsTrimOrNull form.coverImage ∧
    (updatedData form now).genre = form.genre ∧
    (updatedData form now).country = form.country ∧
    (updatedData form now).type = form.type ∧
    (updatedData form now).releaseYear = form.releaseYear ∧
    (mediaData addForm freshId now2).country = none := by
  refine ⟨?_, rfl, rfl, rfl, rfl, rfl, rfl, rfl, ?_⟩
  · simp [handleSubmitEdit, ht]
  · simp [mediaData, hac]

/-- Edit-Media draft with empty genre and country, used to instantiate
`edit_update_raw_fields`. -/
def sparseEditForm : EditForm :=
  { title := " Oldboy ", type := "movie", genre := "", releaseYear := 2003
    country := "", description := "  ", coverImage := "" }

/-- Witness for `edit_update_raw_fields`: the empty genre and country of
the draft are persisted as empty strings by Edit, while Add persists an
empty country as null. -/
theorem edit_update_raw_fields_witness :
    (jsTrim sparseEditForm.title ≠ "" ∧ emptyAddForm.country = "") ∧
    ((handleSubmitEdit sparseEditForm "m1" true "t5" true).calls =
      [.update "m1" (updatedData sparseEditForm "t5")] ∧
     (updatedData sparseEditForm "t5").title = jsTrim sparseEditForm.title ∧
     (updatedData sparseEditForm "t5").description =
       jsTrimOrNull sparseEditForm.description ∧
     (updatedData sparseEditForm "t5").coverImage =
       jsTrimOrNull sparseEditForm.coverImage ∧
     (updatedData sparseEditForm "t5").genre = sparseEditForm.genre ∧
     (updatedData sparseEditForm "t5").country = sparseEditForm.country ∧
     (updatedData sparseEditForm "t5").type = sparseEditForm.type ∧
     (updatedData sparseEditForm "t5").releaseYear = sparseEditForm.releaseYear ∧
     (mediaData emptyAddForm "id2" "t6").country = none) :=
  ⟨⟨by decide, by decide⟩,
   edit_update_raw_fields sparseEditForm "m1" true "t5" emptyAddForm "id2" "t6"
     (by decide) (by decide)⟩

/-- Deleting a rating by id and then excluding a set of ids is excluding
the enlarged id set. -/
theorem filter_notMem_cons_id (l : List Rating) (i : String)
    (ids : List String) :
    (l.filter (fun x => !(x.id == i))).filter
        (fun x => decide (x.id ∉ ids)) =
      l.filter (fun x => decide (x.id ∉ i :: ids)) := by
  rw [List.filter_filter]
  apply List.filter_congr
  intro x _
  by_cases h1 : x.id = i <;> by_cases h2 : x.id ∈ ids <;> simp [h1, h2]

/-- Running the rating-delete loop with no injected failure deletes every
listed rating, in order, and completes. -/
theorem deleteRatingsSeq_none (rs : List Rating) : ∀ (s : Store) (k : Nat),
    deleteRatingsSeq s rs k none =
      ({ ratings := s.ratings.filter
           (fun x => decide (x.id ∉ rs.map Rating.id))
         media := s.media },
       rs.map (fun r => DelCall.delRating r.id), true) := by
  induction rs with
  | nil => intro s k; simp [deleteRatingsSeq]
  | cons r rest ih =>
    intro s k
    simp only [deleteRatingsSeq, ih, reduceCtorEq, if_false,
      List.map_cons, deleteRatingById]
    rw [filter_notMem_cons_id]

/-- Running the rating-delete loop with the `m`-th delete failing deletes
exactly the ratings before the failing one, leaves the store's media
untouched, and reports failure; the failing call is still issued. -/
theorem deleteRatingsSeq_fail (rs : List Rating) : ∀ (s : Store) (k m : Nat),
    k ≤ m → m - k < rs.length →
    deleteRatingsSeq s rs k (some m) =
      ({ ratings := s.ratings.filter
           (fun x => decide (x.id ∉ ((rs.take (m - k)).map Rating.id)))
         media := s.media },
       (rs.take (m - k + 1)).map (fun r => DelCall.delRating r.id), false) := by
  induction rs with
  | nil => intro s k m _ h; simp at h
  | cons r rest ih =>
    intro s k m hkm h
    by_cases hmk : m = k
    · subst hmk
      simp [deleteRatingsSeq]
    · have hlt : k < m := lt_of_le_of_ne hkm (fun hc => hmk hc.symm)
      have hne : ¬ ((some m : Option Nat) = some k) := by
        simp
        omega
      have he : m - k = (m - (k + 1)) + 1 := by omega
      rw [List.length_cons] at h
      simp only [deleteRatingsSeq, hne, if_false,
        ih (deleteRatingById s r.id) (k + 1) m (by omega) (by omega)]
      rw [he, List.take_succ_cons, List.take_succ_cons]
      simp only [deleteRatingById, List.map_cons]
      rw [filter_notMem_cons_id]

/-- Over a list of ratings with pairwise-distinct ids, filtering for the
ids of a subsequence recovers exactly that subsequence. -/
theorem filter_mem_ids_of_sublist {t l : List Rating}
    (h : List.Sublist t l) (hnd : (l.map Rating.id).Nodup) :
    l.filter (fun x => decide (x.id ∈ t.map Rating.id)) = t := by
  induction h with
  | slnil => rfl
  | @cons t l b hsub ih =>
    rw [List.map_cons, List.nodup_cons] at hnd
    obtain ⟨hb, hnd2⟩ := hnd
    have hbt : b.id ∉ t.map Rating.id := fun hc =>
      hb ((hsub.map Rating.id).subset hc)
    rw [List.filter_cons_of_neg (by simpa using hbt)]
    exact ih hnd2
  | @cons₂ t l b hsub ih =>
    rw [List.map_cons, List.nodup_cons] at hnd
    obtain ⟨hb, hnd2⟩ := hnd
    rw [List.map_cons, List.filter_cons_of_pos (by simp)]
    congr 1
    rw [List.filter_congr (q := fun x => decide (x.id ∈ t.map Rating.id))
      (fun x hx => by
        have hxb : x.id ≠ b.id := fun hc => by
          exact hb (hc ▸ List.mem_map_of_mem Rating.id hx)
        simp [hxb])]
    exact ih hnd2

/-- A filter and its complement partition a list\'s length. -/
theorem length_filter_partition (p : Rating → Bool) (l : List Rating) :
    (l.filter p).length + (l.filter (fun x => !(p x))).length = l.length := by
  induction l with
  | nil => rfl
  | cons a t ih =>
    cases h : p a <;> simp [List.filter_cons, h] <;> omega

/-- Excluding the ids of a subsequence of a distinct-id list removes
exactly that many elements. -/
theorem length_filter_notMem_ids {t l : List Rating}
    (h : List.Sublist t l) (hnd : (l.map Rating.id).Nodup) :
    (l.filter (fun x => decide (x.id ∉ t.map Rating.id))).length + t.length
      = l.length := by
  have h1 := length_filter_partition
    (fun x => decide (x.id ∈ t.map Rating.id)) l
  rw [filter_mem_ids_of_sublist h hnd] at h1
  have h2 : l.filter (fun x => !(decide (x.id ∈ t.map Rating.id))) =
      l.filter (fun x => decide (x.id ∉ t.map Rating.id)) := by
    apply List.filter_congr
    intro x _
    by_cases hx : x.id ∈ t.map Rating.id <;> simp [hx]
  rw [h2] at h1
  omega

/-- Filtering a distinct-id list by exclusion of the ids of its first `j`
elements leaves exactly the elements from position `j` on. -/
theorem filter_notMem_take_ids {rs : List Rating} (j : Nat)
    (hnd : (rs.map Rating.id).Nodup) :
    rs.filter (fun x => decide (x.id ∉ ((rs.take j).map Rating.id)))
      = rs.drop j := by
  have key : ∀ (t d : List Rating), (t.map Rating.id ++ d.map Rating.id).Nodup →
      (t ++ d).filter (fun x => decide (x.id ∉ t.map Rating.id)) = d := by
    intro t d hnd2
    rw [List.filter_append]
    have h1 : t.filter (fun x => decide (x.id ∉ t.map Rating.id)) = [] := by
      rw [List.filter_eq_nil_iff]
      intro a ha
      simp [List.mem_map_of_mem Rating.id ha]
    have h2 : d.filter (fun x => decide (x.id ∉ t.map Rating.id)) = d := by
      rw [List.filter_eq_self]
      intro a ha
      have hmem : a.id ∈ d.map Rating.id := List.mem_map_of_mem _ ha
      have hdisj := List.disjoint_of_nodup_append hnd2
      simp only [decide_eq_true_eq]
      intro hc
      exact hdisj hc hmem
    rw [h1, h2, List.nil_append]
  have hres := key (rs.take j) (rs.drop j)
    (by rw [← List.map_append, List.take_append_drop]; exact hnd)
  rw [List.take_append_drop] at hres
  exact hres

/-- C2: over a store whose ratings have distinct ids, a confirmed media
deletion deletes the ratings referencing the media one at a time, each
before the single media delete is issued; if every call succeeds no rating
referencing the id and no media record with the id remains; if the k-th
rating delete fails, exactly the first k-1 listed ratings are deleted, the
remaining ones still exist, the media record still exists, and no deleted
rating is restored. -/
theorem delete_cascade_spec (s : Store) (mid : String) (k : Nat)
    (hnd : (s.ratings.map Rating.id).Nodup)
    (hk1 : 1 ≤ k) (hk2 : k ≤ (listRatingsByMedia s mid).length) :
    ((handleDelete s mid none).2.2 = true ∧
     (handleDelete s mid none).2.1 =
       (listRatingsByMedia s mid).map (fun r => DelCall.delRating r.id) ++
         [DelCall.delMedia mid] ∧
     (handleDelete s mid none).1.ratings.filter
       (fun r => r.mediaId == mid) = [] ∧
     (handleDelete s mid none).1.media.filter (fun m => m.id == mid) = []) ∧
    ((handleDelete s mid (some k)).2.2 = false ∧
     (handleDelete s mid (some k)).2.1 =
       ((listRatingsByMedia s mid).take k).map
         (fun r => DelCall.delRating r.id) ∧
     (handleDelete s mid (some k)).1.media = s.media ∧
     (handleDelete s mid (some k)).1.ratings =
       s.ratings.filter (fun x =>
         decide (x.id ∉
           (((listRatingsByMedia s mid).take (k - 1)).map Rating.id))) ∧
     (handleDelete s mid (some k)).1.ratings.filter
       (fun r => r.mediaId == mid) =
       (listRatingsByMedia s mid).drop (k - 1) ∧
     (handleDelete s mid (some k)).1.ratings.length + (k - 1) =
       s.ratings.length) := by
  have hsub : List.Sublist (listRatingsByMedia s mid) s.ratings :=
    List.filter_sublist _
  have hndrs : ((listRatingsByMedia s mid).map Rating.id).Nodup :=
    List.Nodup.sublist (hsub.map Rating.id) hnd
  have hnone : handleDelete s mid none =
      (deleteMediaById
        { ratings := s.ratings.filter
            (fun x => decide (x.id ∉ (listRatingsByMedia s mid).map Rating.id))
          media := s.media } mid,
       (listRatingsByMedia s mid).map (fun r => DelCall.delRating r.id) ++
         [DelCall.delMedia mid], true) := by
    simp only [handleDelete, deleteRatingsSeq_none, if_true]
  have hfail0 := deleteRatingsSeq_fail (listRatingsByMedia s mid) s 1 k hk1
    (by omega)
  have hk' : k - 1 + 1 = k := by omega
  have hsome : handleDelete s mid (some k) =
      ({ ratings := s.ratings.filter
           (fun x => decide (x.id ∉
             (((listRatingsByMedia s mid).take (k - 1)).map Rating.id)))
         media := s.media },
       ((listRatingsByMedia s mid).take k).map
         (fun r => DelCall.delRating r.id), false) := by
    simp only [handleDelete, hfail0, hk', Bool.false_eq_true, if_false]
  refine ⟨⟨?_, ?_, ?_, ?_⟩, ?_, ?_, ?_, ?_, ?_, ?_⟩
  · rw [hnone]
  · rw [hnone]
  · rw [hnone]
    simp only [deleteMediaById]
    rw [List.filter_eq_nil_iff]
    intro a ha hQ
    rw [List.mem_filter] at ha
    obtain ⟨hal, hP⟩ := ha
    rw [decide_eq_true_eq] at hP
    exact hP (List.mem_map_of_mem Rating.id (List.mem_filter.mpr ⟨hal, hQ⟩))
  · rw [hnone]
    simp only [deleteMediaById]
    rw [List.filter_filter, List.filter_eq_nil_iff]
    intro a _
    simp
  · rw [hsome]
  · rw [hsome]
  · rw [hsome]
  · rw [hsome]
  · rw [hsome]
    rw [List.filter_filter]
    have hcomm : s.ratings.filter (fun x => (x.mediaId == mid) &&
        decide (x.id ∉
          (((listRatingsByMedia s mid).take (k - 1)).map Rating.id))) =
        (listRatingsByMedia s mid).filter (fun x =>
          decide (x.id ∉
            (((listRatingsByMedia s mid).take (k - 1)).map Rating.id))) := by
      conv_rhs => rw [listRatingsByMedia, List.filter_filter]
      apply List.filter_congr
      intro x _
      exact Bool.and_comm _ _
    rw [hcomm, filter_notMem_take_ids (k - 1) hndrs]
  · rw [hsome]
    have hsubt : List.Sublist ((listRatingsByMedia s mid).take (k - 1))
        s.ratings :=
      List.Sublist.trans (List.take_sublist _ _) hsub
    have hcount := length_filter_notMem_ids hsubt hnd
    have hlen : ((listRatingsByMedia s mid).take (k - 1)).length = k - 1 := by
      rw [List.length_take]
      omega
    rw [hlen] at hcount
    exact hcount

/-- Second rating referencing `sampleMedia`, used for the cascade witness. -/
def cascadeRating2 : Rating :=
  { id := "r2", userId := "u2", mediaId := "m1", rating := 4
    review := some "ok", updatedAt := some "2024-02-02" }

/-- Third rating referencing `sampleMedia`, used for the cascade witness. -/
def cascadeRating3 : Rating :=
  { id := "r3", userId := "u3", mediaId := "m1", rating := 5
    review := none, updatedAt := none }

/-- A rating referencing another media record, untouched by the cascade. -/
def otherRating : Rating :=
  { id := "r4", userId := "u1", mediaId := "m9", rating := 2
    review := none, updatedAt := none }

/-- Store with three ratings referencing `sampleMedia`, one rating for a
different media record, and two media records. -/
def cascadeStore : Store :=
  { ratings := [sampleRating, cascadeRating2, otherRating, cascadeRating3]
    media := [sampleMedia, { sampleMedia with id := "m9" }] }

/-- Witness for `delete_cascade_spec` at `cascadeStore` with the second
rating delete failing, matching the spec's three-rating example. -/
theorem delete_cascade_spec_witness :
    ((cascadeStore.ratings.map Rating.id).Nodup ∧ 1 ≤ 2 ∧
      2 ≤ (listRatingsByMedia cascadeStore "m1").length) ∧
    (((handleDelete cascadeStore "m1" none).2.2 = true ∧
      (handleDelete cascadeStore "m1" none).2.1 =
        (listRatingsByMedia cascadeStore "m1").map
          (fun r => DelCall.delRating r.id) ++ [DelCall.delMedia "m1"] ∧
      (handleDelete cascadeStore "m1" none).1.ratings.filter
        (fun r => r.mediaId == "m1") = [] ∧
      (handleDelete cascadeStore "m1" none).1.media.filter
        (fun m => m.id == "m1") = []) ∧
     ((handleDelete cascadeStore "m1" (some 2)).2.2 = false ∧
      (handleDelete cascadeStore "m1" (some 2)).2.1 =
        ((listRatingsByMedia cascadeStore "m1").take 2).map
          (fun r => DelCall.delRating r.id) ∧
      (handleDelete cascadeStore "m1" (some 2)).1.media = cascadeStore.media ∧
      (handleDelete cascadeStore "m1" (some 2)).1.ratings =
        cascadeStore.ratings.filter (fun x =>
          decide (x.id ∉
            (((listRatingsByMedia cascadeStore "m1").take (2 - 1)).map
              Rating.id))) ∧
      (handleDelete cascadeStore "m1" (some 2)).1.ratings.filter
        (fun r => r.mediaId == "m1") =
        (listRatingsByMedia cascadeStore "m1").drop (2 - 1) ∧
      (handleDelete cascadeStore "m1" (some 2)).1.ratings.length + (2 - 1) =
        cascadeStore.ratings.length)) :=
  ⟨⟨by decide, by decide, by decide⟩,
   delete_cascade_spec cascadeStore "m1" 2 (by decide) (by decide) (by decide)⟩
